import Mathlib

/-!
Verification of the Terraform profile generator.

The definitions below are a shallow embedding of the generator sources:
  - `src/lib/terraform-generator.ts` (the multi-instance generator, namespace
    `TerraformGenerator` below),
  - the two earlier flow variants of the generator (namespaces
    `FlowKeepSlashStar` and `FlowEscapeAll` for their topic escapers),
  - `src/lib/profile-configurator-schema.ts` (the zod validation schema,
    `validInput` below).

JavaScript strings are modelled as Lean `String` (a list of Unicode code
points); `for...of` iteration over a JS string iterates code points, which is
`String.data` here.  `toLowerCase`/`trim` are modelled for the ASCII range,
which is exact for every character class the generator distinguishes.
-/

/-- Model of JS `String.prototype.padStart(target, pad)`: prepend copies of
`pad` until the length is at least `target`; longer strings are unchanged. -/
def padStart (s : String) (target : Nat) (pad : Char) : String :=
  String.mk (List.replicate (target - s.data.length) pad ++ s.data)

/-- Model of JS string truthiness for an optional string: `undefined` and the
empty string are falsy. -/
def optTruthy : Option String → Prop
  | none => False
  | some s => s ≠ ""

instance instDecidableOptTruthy (o : Option String) : Decidable (optTruthy o) :=
  match o with
  | none => isFalse (fun h => h)
  | some s => inferInstanceAs (Decidable (s ≠ ""))

/-- Model of JS `String.prototype.startsWith`. -/
def jsStartsWith (s pre : String) : Bool :=
  pre.data.isPrefixOf s.data

/-- Model of JS `String.prototype.endsWith` as a proposition. -/
def jsEndsWith (s suffixPart : String) : Prop :=
  suffixPart.data <:+ s.data

/-- ASCII whitespace test used by the `trim` model. -/
def isJsWhitespace (c : Char) : Bool :=
  c == ' ' || c == '\t' || c == '\n' || c == '\r' || c == '\x0b' || c == '\x0c'

/-- Model of JS `String.prototype.trim` (ASCII whitespace; the generator only
ever trims over ASCII text). -/
def jsTrim (s : String) : String :=
  String.mk (((s.data.dropWhile isJsWhitespace).reverse.dropWhile isJsWhitespace).reverse)

/-- Concatenation of a list of strings in order; this models repeated
`result += piece` accumulation in the source. -/
def concatAll : List String → String
  | [] => ""
  | s :: rest => s ++ concatAll rest

/-- Join a list of strings with a separator between consecutive elements;
this models JS `Array.prototype.join(sep)`. -/
def joinSep (sep : String) : List String → String
  | [] => ""
  | [s] => s
  | s :: rest => s ++ sep ++ joinSep sep rest

/-- Number of (possibly overlapping) occurrences of `pat` inside `s`,
counted over code points.  Used to count marker comments in a document. -/
def countOccurrencesAux (pat : List Char) : List Char → Nat
  | [] => 0
  | c :: rest => (if pat.isPrefixOf (c :: rest) then 1 else 0) + countOccurrencesAux pat rest

/-- Number of occurrences of the pattern string inside the second string. -/
def countOccurrences (pat s : String) : Nat :=
  countOccurrencesAux pat.data s.data

/-- Number of occurrences of `pat` inside `l₁ ++ l₂` that start inside `l₁`;
used to count occurrences of a pattern piecewise over a concatenation. -/
def countOccurrencesFrom (pat : List Char) : List Char → List Char → Nat
  | [], _ => 0
  | c :: rest, l₂ =>
    (if pat.isPrefixOf ((c :: rest) ++ l₂) then 1 else 0) + countOccurrencesFrom pat rest l₂

/-- ASCII model of JS `toLowerCase` on one character. -/
def jsToLowerCaseChar (c : Char) : Char :=
  if 'A' ≤ c ∧ c ≤ 'Z' then Char.ofNat (c.toNat + 32) else c

/-- ASCII model of JS `String.prototype.toLowerCase`. -/
def jsToLowerCase (s : String) : String :=
  String.mk (s.data.map jsToLowerCaseChar)

/-- Characters kept by the sanitizer's replacement step, the class
`[a-z0-9_]` of the regex in `sanitizeForTerraformResourceName`. -/
def sanitizeKeeps (c : Char) : Prop :=
  ('a' ≤ c ∧ c ≤ 'z') ∨ ('0' ≤ c ∧ c ≤ '9') ∨ c = '_'

instance instDecidableSanitizeKeeps (c : Char) : Decidable (sanitizeKeeps c) :=
  inferInstanceAs (Decidable (_ ∨ _))

/-- Replacement `.replace(/[^a-z0-9_]/g, '_')` on one character. -/
def sanitizeReplaceChar (c : Char) : Char :=
  if sanitizeKeeps c then c else '_'

/-- Removal of leading and trailing underscores, the replacement
`.replace(/^_+|_+$/g, '')`. -/
def trimUnderscores (l : List Char) : List Char :=
  ((l.dropWhile (· == '_')).reverse.dropWhile (· == '_')).reverse

/-- Embedding of `sanitizeForTerraformResourceName` from
`src/lib/terraform-generator.ts`: lowercase, replace every character outside
`[a-z0-9_]` by an underscore, drop leading and trailing underscores.  The
`if` branch models the JS guard `if (!name) return ''`. -/
def sanitizeForTerraformResourceName (name : String) : String :=
  if name = "" then ""
  else String.mk (trimUnderscores ((jsToLowerCase name).data.map sanitizeReplaceChar))

/-- Specification-side sanitizer, written from the spec's words: the input
lowercased, every character outside `[a-z0-9_]` replaced by `_`, and the
leading and trailing underscore runs trimmed. -/
def dropLeadingUnderscores (l : List Char) : List Char :=
  l.dropWhile (· == '_')

/-- Trailing underscore removal for the specification-side sanitizer. -/
def dropTrailingUnderscores (l : List Char) : List Char :=
  (l.reverse.dropWhile (· == '_')).reverse

/-- Sanitizer as described by the specification sentence. -/
def sanitizeSpec (s : String) : String :=
  String.mk (dropTrailingUnderscores (dropLeadingUnderscores
    ((jsToLowerCase s).data.map sanitizeReplaceChar)))

/-!  Theorems are collected at the end of the file; definitions continue. -/

/-- Decimal digit list of a natural number, most significant digit first,
reusing the kernel-computable core rendering (`Nat.repr n` is
`(Nat.toDigits 10 n).asString`). -/
def decimalDigits (n : Nat) : List Char :=
  Nat.toDigits 10 n

/-- Specification-side notion of zero-padding a number to (at least) three
decimal digits, as in `printf "%03d"`. -/
def zeroPadTo3 (n : Nat) : String :=
  String.mk (List.replicate (3 - (decimalDigits n).length) '0' ++ decimalDigits n)

/-- Embedding of `generatePaddedSuffix` from `src/lib/terraform-generator.ts`:
empty for a single instance, otherwise an underscore followed by the instance
number zero-padded via `padStart(3, '0')`. -/
def generatePaddedSuffix (instanceNumber totalInstances : Nat) : String :=
  if totalInstances ≤ 1 then ""
  else "_" ++ padStart (Nat.repr instanceNumber) 3 '0'

namespace TerraformGenerator

/-- Embedding of `convertTopicToUnicodeEscaped` from
`src/lib/terraform-generator.ts` (variant A): iterate the code points of the
topic with `for...of`, appending `>` for `>` and the character itself
otherwise. -/
def convertTopicToUnicodeEscaped (topicValue : String) : String :=
  topicValue.data.foldl
    (fun result c => result ++ (if c = '>' then "\\u003e" else String.singleton c)) ""

end TerraformGenerator

/-- Specification-side form of variant A: a per-code-point map in which `>`
becomes the six-character sequence `>` and everything else is kept. -/
def escapeOnlyGtSpec (s : String) : String :=
  concatAll (s.data.map (fun c => if c = '>' then "\\u003e" else String.singleton c))

/-- Model of JS `charCodeAt(0)` applied to one code point produced by
`for...of`: the code point itself below `0x10000`, and the UTF-16 high
surrogate for supplementary-plane characters. -/
def charCodeAt0 (c : Char) : Nat :=
  if c.toNat < 65536 then c.toNat else 55296 + (c.toNat - 65536) / 1024

/-- Lowercase hexadecimal digit character for a value below 16, as produced
by JS `Number.prototype.toString(16)`. -/
def hexDigitChar (n : Nat) : Char :=
  if n < 10 then Char.ofNat (48 + n) else Char.ofNat (87 + n)

/-- Fuel-driven base-16 digit accumulator; `fuel` only bounds the recursion
depth and `n + 1` is always sufficient fuel for rendering `n`. -/
def natToHexAux : Nat → Nat → List Char → List Char
  | 0, _, acc => acc
  | fuel + 1, n, acc =>
    if n < 16 then hexDigitChar n :: acc
    else natToHexAux fuel (n / 16) (hexDigitChar (n % 16) :: acc)

/-- Model of JS `Number.prototype.toString(16)` for natural numbers:
lowercase base-16 rendering, most significant digit first. -/
def jsNumberToHexString (n : Nat) : String :=
  String.mk (natToHexAux (n + 1) n [])

/-- Escape of one non-kept character in the full-escape variants:
`'\\u' + char.charCodeAt(0).toString(16).padStart(4, '0')`. -/
def escapeCharJs (c : Char) : String :=
  "\\u" ++ padStart (jsNumberToHexString (charCodeAt0 c)) 4 '0'

/-- Character class `[a-zA-Z0-9/*]` of the first full-escape variant. -/
def keepsSlashStar (c : Char) : Prop :=
  ('a' ≤ c ∧ c ≤ 'z') ∨ ('A' ≤ c ∧ c ≤ 'Z') ∨ ('0' ≤ c ∧ c ≤ '9') ∨ c = '/' ∨ c = '*'

instance instDecidableKeepsSlashStar (c : Char) : Decidable (keepsSlashStar c) :=
  inferInstanceAs (Decidable (_ ∨ _))

/-- Character class `[a-zA-Z0-9]` of the second full-escape variant. -/
def isAsciiAlphanum (c : Char) : Prop :=
  ('a' ≤ c ∧ c ≤ 'z') ∨ ('A' ≤ c ∧ c ≤ 'Z') ∨ ('0' ≤ c ∧ c ≤ '9')

instance instDecidableIsAsciiAlphanum (c : Char) : Decidable (isAsciiAlphanum c) :=
  inferInstanceAs (Decidable (_ ∨ _))

namespace FlowKeepSlashStar

/-- Embedding of `convertTopicToUnicodeEscaped` from the first flow variant:
keep `[a-zA-Z0-9/*]`, escape every other code point as `\uXXXX`. -/
def convertTopicToUnicodeEscaped (topicValue : String) : String :=
  topicValue.data.foldl
    (fun result c => result ++ (if keepsSlashStar c then String.singleton c else escapeCharJs c)) ""

end FlowKeepSlashStar

namespace FlowEscapeAll

/-- Embedding of `convertTopicToUnicodeEscaped` from the second flow variant:
keep `[a-zA-Z0-9]`, escape every other code point as `\uXXXX`. -/
def convertTopicToUnicodeEscaped (topicValue : String) : String :=
  topicValue.data.foldl
    (fun result c => result ++ (if isAsciiAlphanum c then String.singleton c else escapeCharJs c)) ""

end FlowEscapeAll

/-- Value of a lowercase hexadecimal digit character (specification-side
decoder used to state that produced escapes are correct). -/
def hexCharVal (c : Char) : Nat :=
  if c.toNat ≤ 57 then c.toNat - 48 else c.toNat - 87

/-- Value denoted by a big-endian list of hexadecimal digit characters. -/
def hexValue (l : List Char) : Nat :=
  l.foldl (fun acc c => 16 * acc + hexCharVal c) 0

/-- Membership in the lowercase hexadecimal alphabet. -/
def isHexDigitChar (c : Char) : Prop :=
  ('0' ≤ c ∧ c ≤ '9') ∨ ('a' ≤ c ∧ c ≤ 'f')

instance instDecidableIsHexDigitChar (c : Char) : Decidable (isHexDigitChar c) :=
  inferInstanceAs (Decidable (_ ∨ _))

/-- Proof-side base-16 digit list (structural form of `natToHexAux` used for
reasoning; the two are related by `natToHexAux_eq_hexDigits`). -/
def hexDigits (n : Nat) : List Char :=
  if _h : n < 16 then [hexDigitChar n]
  else hexDigits (n / 16) ++ [hexDigitChar (n % 16)]
termination_by n
decreasing_by exact Nat.div_lt_self (by omega) (by omega)

/-- Application type enumeration of the zod schema
(`z.enum(["publisher", "subscriber"])`). -/
inductive ApplicationType where
  | publisher
  | subscriber
deriving DecidableEq

/-- One element of the `topics` array (`z.object({ value: z.string() })`). -/
structure TopicItem where
  value : String
deriving DecidableEq

/-- Embedding of `ProfileConfiguratorValues`, the validated form values. -/
structure ProfileConfiguratorValues where
  applicationType : ApplicationType
  authProfileName : String
  aclProfileName : String
  queueName : Option String
  ownerId : Option String
  topics : List TopicItem
  numberOfInstances : Option Nat
deriving DecidableEq

/-- Result type of the generator (`TerraformGenerationOutput`). -/
structure TerraformGenerationOutput where
  fullTerraformConfig : String
  ownerIdMapping : Option String
deriving DecidableEq

namespace TerraformGenerator

/-- Falsy-or-one test used by both schema refinements:
`!data.numberOfInstances || data.numberOfInstances === 1`. -/
def numberOfInstancesFalsyOrOne : Option Nat → Prop
  | none => True
  | some n => n = 0 ∨ n = 1

instance instDecidableFalsyOrOne (o : Option Nat) : Decidable (numberOfInstancesFalsyOrOne o) :=
  match o with
  | none => isTrue trivial
  | some n => inferInstanceAs (Decidable (n = 0 ∨ n = 1))

/-- Base constraint `z.number().int().min(1).optional()` on the instance
count. -/
def numberOfInstancesAtLeastOne : Option Nat → Prop
  | none => True
  | some n => 1 ≤ n

instance instDecidableAtLeastOne (o : Option Nat) : Decidable (numberOfInstancesAtLeastOne o) :=
  match o with
  | none => isTrue trivial
  | some n => inferInstanceAs (Decidable (1 ≤ n))

/-- First `.refine` requirement: `queueName && queueName.trim().length > 0`. -/
def queueNameRequirement : Option String → Prop
  | some q => q ≠ "" ∧ jsTrim q ≠ ""
  | none => False

instance instDecidableQueueNameReq (o : Option String) : Decidable (queueNameRequirement o) :=
  match o with
  | none => isFalse (fun h => h)
  | some q => inferInstanceAs (Decidable (q ≠ "" ∧ jsTrim q ≠ ""))

/-- Second `.refine` requirement:
`ownerId && ownerId.trim().length > 0 && ownerId !== "Error fetching ID"`. -/
def ownerIdRequirement : Option String → Prop
  | some o => o ≠ "" ∧ jsTrim o ≠ "" ∧ o ≠ "Error fetching ID"
  | none => False

instance instDecidableOwnerIdReq (o : Option String) : Decidable (ownerIdRequirement o) :=
  match o with
  | none => isFalse (fun h => h)
  | some q => inferInstanceAs (Decidable (q ≠ "" ∧ jsTrim q ≠ "" ∧ q ≠ "Error fetching ID"))

/-- Embedding of `profileConfiguratorSchema` from
`src/lib/profile-configurator-schema.ts`: the base object constraints plus the
two `.refine` clauses for single-instance subscribers. -/
def validInput (input : ProfileConfiguratorValues) : Prop :=
  input.authProfileName ≠ "" ∧
  input.aclProfileName ≠ "" ∧
  input.topics ≠ [] ∧
  (∀ t ∈ input.topics, t.value ≠ "") ∧
  numberOfInstancesAtLeastOne input.numberOfInstances ∧
  (input.applicationType = ApplicationType.subscriber ∧
      numberOfInstancesFalsyOrOne input.numberOfInstances →
    queueNameRequirement input.queueName) ∧
  (input.applicationType = ApplicationType.subscriber ∧
      numberOfInstancesFalsyOrOne input.numberOfInstances →
    ownerIdRequirement input.ownerId)

instance instDecidableValidInput (input : ProfileConfiguratorValues) :
    Decidable (validInput input) :=
  inferInstanceAs (Decidable (_ ∧ _))

/-- Fixed broker reference interpolated into every block
(`msgVpnNameValue` in the source). -/
def msgVpnNameValue : String :=
  "solacebroker_msg_vpn.NEMS_01.msg_vpn_name"

/-- Separator appended between the blocks of consecutive instances. -/
def instanceSeparator : String :=
  "\n\n\n# --- Next Profile Instance ---\n\n"

/-- Per-instance name: the base name with the padded suffix appended. -/
def instanceNameWithSuffix (base : String) (i numInstances : Nat) : String :=
  base ++ generatePaddedSuffix i numInstances

/-- Per-instance ACL profile name (`instanceAclProfileName`). -/
def instanceAclProfileName (input : ProfileConfiguratorValues) (i numInstances : Nat) : String :=
  instanceNameWithSuffix input.aclProfileName i numInstances

/-- Per-instance authorization profile name (`instanceAuthProfileName`). -/
def instanceAuthProfileName (input : ProfileConfiguratorValues) (i numInstances : Nat) : String :=
  instanceNameWithSuffix input.authProfileName i numInstances

/-- Per-instance queue name: `input.queueName ? queueName + suffix : undefined`
(the JS conditional tests string truthiness). -/
def instanceQueueName (input : ProfileConfiguratorValues) (i numInstances : Nat) : Option String :=
  match input.queueName with
  | some q => if q ≠ "" then some (instanceNameWithSuffix q i numInstances) else none
  | none => none

/-- Sanitized ACL profile name of the instance. -/
def sanitizedAclProfileName (input : ProfileConfiguratorValues) (i numInstances : Nat) : String :=
  sanitizeForTerraformResourceName (instanceAclProfileName input i numInstances)

/-- Sanitized authorization profile name of the instance. -/
def sanitizedAuthProfileName (input : ProfileConfiguratorValues) (i numInstances : Nat) : String :=
  sanitizeForTerraformResourceName (instanceAuthProfileName input i numInstances)

/-- Sanitized queue name:
`instanceQueueName ? sanitizeForTerraformResourceName(instanceQueueName) : undefined`. -/
def sanitizedQueueName (input : ProfileConfiguratorValues) (i numInstances : Nat) : Option String :=
  match instanceQueueName input i numInstances with
  | some s => if s ≠ "" then some (sanitizeForTerraformResourceName s) else none
  | none => none

/-- Entry `fetchedOwnerIdsForInstances[j]` (an out-of-range JS index reads as
`undefined`). -/
def fetchedEntry (fetched : Option (List String)) (j : Nat) : Option String :=
  match fetched with
  | some arr => arr.get? j
  | none => none

/-- Condition under which the loop overwrites `currentOwnerId` with the
fetched per-instance id:
`applicationType === "subscriber" && numInstances > 1 && fetchedOwnerIdsForInstances && fetchedOwnerIdsForInstances[i - 1]`. -/
def ownerCondition (input : ProfileConfiguratorValues) (fetched : Option (List String))
    (i numInstances : Nat) : Prop :=
  input.applicationType = ApplicationType.subscriber ∧
  1 < numInstances ∧
  fetched ≠ none ∧
  optTruthy (fetchedEntry fetched (i - 1))

instance instDecidableOwnerCondition (input : ProfileConfiguratorValues)
    (fetched : Option (List String)) (i numInstances : Nat) :
    Decidable (ownerCondition input fetched i numInstances) :=
  inferInstanceAs (Decidable (_ ∧ _))

/-- Owner id used for the instance: the fetched id when `ownerCondition`
holds, else `input.ownerId` (default for single instance or publisher). -/
def currentOwnerId (input : ProfileConfiguratorValues) (fetched : Option (List String))
    (i numInstances : Nat) : Option String :=
  if ownerCondition input fetched i numInstances then fetchedEntry fetched (i - 1)
  else input.ownerId

/-- Shared prefix of a line of the owner-id mapping file:
`Instance ${i} (ACL: ${instanceAclProfileName}${instanceQueueName ? ", Queue: " + instanceQueueName : ""}): `. -/
def mappingLinePrefix (input : ProfileConfiguratorValues) (i numInstances : Nat) : String :=
  "Instance " ++ Nat.repr i ++ " (ACL: " ++ instanceAclProfileName input i numInstances ++
  (match instanceQueueName input i numInstances with
   | some q => if q ≠ "" then ", Queue: " ++ q else ""
   | none => "") ++ "): "

/-- Text appended to `ownerIdMappingResult` by the instance: a mapping line
for a valid fetched id, an error line for an `ErrorFetchingID_` id, nothing
otherwise.  Inside the `ownerCondition` branch `currentOwnerId` is the
fetched entry. -/
def ownerIdMappingAddition (input : ProfileConfiguratorValues) (fetched : Option (List String))
    (i numInstances : Nat) : String :=
  if ownerCondition input fetched i numInstances then
    match fetchedEntry fetched (i - 1) with
    | some oid =>
      if oid ≠ "" ∧ jsStartsWith oid "ErrorFetchingID_" = false then
        mappingLinePrefix input i numInstances ++ oid ++ "\n"
      else if oid ≠ "" ∧ jsStartsWith oid "ErrorFetchingID_" = true then
        mappingLinePrefix input i numInstances ++ "Error - ID not fetched\n"
      else ""
    | none => ""
  else ""

/-- ACL profile block (`aclProfileResource`), already trimmed of the leading
template newline. -/
def aclProfileResource (input : ProfileConfiguratorValues) (i numInstances : Nat) : String :=
  "resource \"solacebroker_msg_vpn_acl_profile\" \"" ++
  sanitizedAclProfileName input i numInstances ++
  "\" \x7b\n  acl_profile_name                     = \"" ++
  instanceAclProfileName input i numInstances ++
  "\"\n  client_connect_default_action        = \"allow\"\n  msg_vpn_name                         = " ++
  msgVpnNameValue ++
  "\n  subscribe_share_name_default_action  = \"disallow\"\n\x7d"

/-- Client profile reference, chosen by application type
(`clientProfileNameValue`). -/
def clientProfileNameValue (input : ProfileConfiguratorValues) : String :=
  if input.applicationType = ApplicationType.publisher then
    "solacebroker_msg_vpn_client_profile.NEMS_01_publisher-client-profile.client_profile_name"
  else
    "solacebroker_msg_vpn_client_profile.NEMS_01_subscriber-client-profile.client_profile_name"

/-- Authorization group block (`authGroupResource`). -/
def authGroupResource (input : ProfileConfiguratorValues) (i numInstances : Nat) : String :=
  "resource \"solacebroker_msg_vpn_authorization_group\" \"" ++
  sanitizedAuthProfileName input i numInstances ++
  "\" \x7b\n  acl_profile_name          = solacebroker_msg_vpn_acl_profile." ++
  sanitizedAclProfileName input i numInstances ++
  ".acl_profile_name\n  authorization_group_name  = \"" ++
  instanceAuthProfileName input i numInstances ++
  "\"\n  client_profile_name       = " ++
  clientProfileNameValue input ++
  "\n  enabled                   = true\n  msg_vpn_name              = " ++
  msgVpnNameValue ++
  "\n\x7d"

/-- Publish topic exception block for one topic (publisher branch of the
`forEach`); `index` is the zero-based topic index. -/
def publishTopicExceptionBlock (input : ProfileConfiguratorValues) (i numInstances : Nat)
    (index : Nat) (topicValue : String) : String :=
  "resource \"solacebroker_msg_vpn_acl_profile_publish_topic_exception\" \"" ++
  (sanitizedAclProfileName input i numInstances ++ "_publish_exception_" ++ Nat.repr index) ++
  "\" \x7b\n  acl_profile_name                = solacebroker_msg_vpn_acl_profile." ++
  sanitizedAclProfileName input i numInstances ++
  ".acl_profile_name\n  msg_vpn_name                    = " ++
  msgVpnNameValue ++
  "\n  publish_topic_exception         = \"" ++
  convertTopicToUnicodeEscaped topicValue ++
  "\"\n  publish_topic_exception_syntax  = \"smf\"\n\x7d"

/-- Subscribe topic exception block for one topic (subscriber branch). -/
def subscribeTopicExceptionBlock (input : ProfileConfiguratorValues) (i numInstances : Nat)
    (index : Nat) (topicValue : String) : String :=
  "resource \"solacebroker_msg_vpn_acl_profile_subscribe_topic_exception\" \"" ++
  (sanitizedAclProfileName input i numInstances ++ "_subscribe_exception_" ++ Nat.repr index) ++
  "\" \x7b\n  acl_profile_name                  = solacebroker_msg_vpn_acl_profile." ++
  sanitizedAclProfileName input i numInstances ++
  ".acl_profile_name\n  msg_vpn_name                      = " ++
  msgVpnNameValue ++
  "\n  subscribe_topic_exception         = \"" ++
  convertTopicToUnicodeEscaped topicValue ++
  "\"\n  subscribe_topic_exception_syntax  = \"smf\"\n\x7d"

/-- Publish exception list: one block per topic for publishers, none
otherwise (the `if` / `else if` over the application type splits the source's
single `topicExceptionResources` array by the branch that filled it). -/
def publishTopicExceptionResources (input : ProfileConfiguratorValues)
    (i numInstances : Nat) : List String :=
  if input.applicationType = ApplicationType.publisher then
    input.topics.enum.map (fun p => publishTopicExceptionBlock input i numInstances p.1 p.2.value)
  else []

/-- Subscribe exception list: one block per topic for subscribers, none
otherwise. -/
def subscribeTopicExceptionResources (input : ProfileConfiguratorValues)
    (i numInstances : Nat) : List String :=
  if input.applicationType = ApplicationType.subscriber then
    input.topics.enum.map (fun p => subscribeTopicExceptionBlock input i numInstances p.1 p.2.value)
  else []

/-- Guard of the queue block:
`applicationType === "subscriber" && instanceQueueName && sanitizedQueueName && currentOwnerId && !currentOwnerId.startsWith("ErrorFetchingID_")`. -/
def queueCondition (input : ProfileConfiguratorValues) (fetched : Option (List String))
    (i numInstances : Nat) : Prop :=
  input.applicationType = ApplicationType.subscriber ∧
  optTruthy (instanceQueueName input i numInstances) ∧
  optTruthy (sanitizedQueueName input i numInstances) ∧
  optTruthy (currentOwnerId input fetched i numInstances) ∧
  jsStartsWith ((currentOwnerId input fetched i numInstances).getD "") "ErrorFetchingID_" = false

instance instDecidableQueueCondition (input : ProfileConfiguratorValues)
    (fetched : Option (List String)) (i numInstances : Nat) :
    Decidable (queueCondition input fetched i numInstances) :=
  inferInstanceAs (Decidable (_ ∧ _))

/-- Queue block text (`queueResource` template). -/
def queueResourceBlock (input : ProfileConfiguratorValues) (fetched : Option (List String))
    (i numInstances : Nat) : String :=
  "resource \"solacebroker_msg_vpn_queue\" \"" ++
  (sanitizedQueueName input i numInstances).getD "" ++
  "\" \x7b\n  egress_enabled                                 = true\n  event_bind_count_threshold                     = \x7b clear_percent = 60, set_percent = 80 \x7d\n  event_msg_spool_usage_threshold                = \x7b clear_percent = 18, set_percent = 25 \x7d\n  event_reject_low_priority_msg_limit_threshold  = \x7b clear_percent = 60, set_percent = 80 \x7d\n  ingress_enabled                                = true\n  max_msg_size                                   = 1e+06\n  max_msg_spool_usage                            = 500\n  msg_vpn_name                                   = " ++
  msgVpnNameValue ++
  "\n  owner                                          = \"" ++
  (currentOwnerId input fetched i numInstances).getD "" ++
  "\"\n  queue_name                                     = \"" ++
  (instanceQueueName input i numInstances).getD "" ++
  "\"\n\x7d"

/-- Queue resource: present exactly when `queueCondition` holds. -/
def queueResource (input : ProfileConfiguratorValues) (fetched : Option (List String))
    (i numInstances : Nat) : Option String :=
  if queueCondition input fetched i numInstances then
    some (queueResourceBlock input fetched i numInstances)
  else none

/-- Queue subscription block for one topic. -/
def queueSubscriptionBlock (input : ProfileConfiguratorValues)
    (i numInstances : Nat) (index : Nat) (topicValue : String) : String :=
  "resource \"solacebroker_msg_vpn_queue_subscription\" \"" ++
  ((sanitizedQueueName input i numInstances).getD "" ++ "_subscription_" ++ Nat.repr index) ++
  "\" \x7b\n  msg_vpn_name        = " ++
  msgVpnNameValue ++
  "\n  queue_name          = solacebroker_msg_vpn_queue." ++
  (sanitizedQueueName input i numInstances).getD "" ++
  ".queue_name\n  subscription_topic  = \"" ++
  convertTopicToUnicodeEscaped topicValue ++
  "\"\n\x7d"

/-- Queue subscription list: one block per topic, filled only inside the
queue branch. -/
def queueSubscriptionResources (input : ProfileConfiguratorValues)
    (fetched : Option (List String)) (i numInstances : Nat) : List String :=
  if queueCondition input fetched i numInstances then
    input.topics.enum.map (fun p => queueSubscriptionBlock input i numInstances p.1 p.2.value)
  else []

/-- Ordered block list of one instance (`instanceTerraformResources`): acl,
auth group, topic exceptions, then the queue block and its subscriptions when
present. -/
def instanceTerraformResources (input : ProfileConfiguratorValues)
    (fetched : Option (List String)) (i numInstances : Nat) : List String :=
  [aclProfileResource input i numInstances, authGroupResource input i numInstances] ++
  publishTopicExceptionResources input i numInstances ++
  subscribeTopicExceptionResources input i numInstances ++
  (queueResource input fetched i numInstances).toList ++
  queueSubscriptionResources input fetched i numInstances

/-- Text of one instance: the instance's blocks joined by a blank line
(`instanceTerraformResources.join('\n\n')`). -/
def instanceText (input : ProfileConfiguratorValues) (fetched : Option (List String))
    (i numInstances : Nat) : String :=
  joinSep "\n\n" (instanceTerraformResources input fetched i numInstances)

/-- Loop indices `i = 1 .. numInstances` of the generator. -/
def instanceIndices (n : Nat) : List Nat :=
  (List.range n).map (fun j => j + 1)

/-- Per-iteration addition to `aggregatedFullTerraformConfig`: the instance
text, followed by the separator when more instances follow. -/
def instancePiece (input : ProfileConfiguratorValues) (fetched : Option (List String))
    (i numInstances : Nat) : String :=
  instanceText input fetched i numInstances ++
  (if 1 < numInstances ∧ i < numInstances then instanceSeparator else "")

/-- Embedding of `generateTerraformConfig`: run the instance loop,
accumulating the configuration document and the owner-id mapping text, then
return the document together with `mapping.trim() || undefined`. -/
def generateTerraformConfig (input : ProfileConfiguratorValues)
    (fetched : Option (List String)) : TerraformGenerationOutput :=
  let numInstances := input.numberOfInstances.getD 1
  let fullConfig := concatAll ((instanceIndices numInstances).map
    (fun i => instancePiece input fetched i numInstances))
  let mapping := jsTrim (concatAll ((instanceIndices numInstances).map
    (fun i => ownerIdMappingAddition input fetched i numInstances)))
  TerraformGenerationOutput.mk fullConfig (if mapping = "" then none else some mapping)

/-- Number of queue blocks in the generated document. -/
def queueBlockCount (input : ProfileConfiguratorValues)
    (fetched : Option (List String)) : Nat :=
  ((instanceIndices (input.numberOfInstances.getD 1)).filterMap
    (fun i => queueResource input fetched i (input.numberOfInstances.getD 1))).length

/-- Number of queue subscription blocks in the generated document. -/
def queueSubscriptionBlockCount (input : ProfileConfiguratorValues)
    (fetched : Option (List String)) : Nat :=
  ((instanceIndices (input.numberOfInstances.getD 1)).map
    (fun i => (queueSubscriptionResources input fetched i
      (input.numberOfInstances.getD 1)).length)).sum

/-- Number of publish topic exception blocks in the generated document. -/
def publishExceptionBlockCount (input : ProfileConfiguratorValues) : Nat :=
  ((instanceIndices (input.numberOfInstances.getD 1)).map
    (fun i => (publishTopicExceptionResources input i
      (input.numberOfInstances.getD 1)).length)).sum

/-- Number of subscribe topic exception blocks in the generated document. -/
def subscribeExceptionBlockCount (input : ProfileConfiguratorValues) : Nat :=
  ((instanceIndices (input.numberOfInstances.getD 1)).map
    (fun i => (subscribeTopicExceptionResources input i
      (input.numberOfInstances.getD 1)).length)).sum

/-- Condition under which the owner-id mapping can receive a line: a
multi-instance subscriber generation with a truthy fetched id for at least
one instance. -/
def mappingEligible (input : ProfileConfiguratorValues)
    (fetched : Option (List String)) : Prop :=
  input.applicationType = ApplicationType.subscriber ∧
  1 < input.numberOfInstances.getD 1 ∧
  ∃ i ∈ instanceIndices (input.numberOfInstances.getD 1),
    optTruthy (fetchedEntry fetched (i - 1))

instance instDecidableMappingEligible (input : ProfileConfiguratorValues)
    (fetched : Option (List String)) : Decidable (mappingEligible input fetched) :=
  inferInstanceAs (Decidable (_ ∧ _))

end TerraformGenerator

/-- Validated subscriber input whose queue name consists only of symbols, so
its sanitized form is empty. -/
def symbolQueueSubscriberInput : ProfileConfiguratorValues :=
  ProfileConfiguratorValues.mk ApplicationType.subscriber "auth1" "acl1"
    (some "!!!") (some "owner1") [TopicItem.mk "t/a"] none

/-- Validated single-instance subscriber input with an ordinary queue name. -/
def plainSubscriberInput : ProfileConfiguratorValues :=
  ProfileConfiguratorValues.mk ApplicationType.subscriber "auth1" "acl1"
    (some "MyQueue") (some "owner1") [TopicItem.mk "t/a"] none

/-- Validated publisher input requesting two instances. -/
def twoInstancePublisherInput : ProfileConfiguratorValues :=
  ProfileConfiguratorValues.mk ApplicationType.publisher "auth1" "acl1"
    none none [TopicItem.mk "t/a"] (some 2)

/-- Validated single-instance publisher input. -/
def plainPublisherInput : ProfileConfiguratorValues :=
  ProfileConfiguratorValues.mk ApplicationType.publisher "auth1" "acl1"
    none none [TopicItem.mk "t/a"] none

/-- Validated publisher input requesting three instances. -/
def threeInstancePublisherInput : ProfileConfiguratorValues :=
  ProfileConfiguratorValues.mk ApplicationType.publisher "auth1" "acl1"
    none none [TopicItem.mk "t/a"] (some 3)

/-- Multi-instance subscriber input used with fetched owner ids. -/
def twoInstanceSubscriberInput : ProfileConfiguratorValues :=
  ProfileConfiguratorValues.mk ApplicationType.subscriber "auth1" "acl1"
    (some "MyQueue") none [TopicItem.mk "t/a"] (some 2)

/-- Validated two-instance subscriber input whose `ownerId` field is a
resolved id (no fetched ids are supplied, so every instance uses it). -/
def twoInstanceSubscriberOwnerInput : ProfileConfiguratorValues :=
  ProfileConfiguratorValues.mk ApplicationType.subscriber "auth1" "acl1"
    (some "MyQueue") (some "owner1") [TopicItem.mk "t/a"] (some 2)

/-- Specification-side form of the first full-escape variant: a per-code-point
map keeping `[a-zA-Z0-9/*]` and escaping everything else. -/
def escapeSpecKeepSlashStar (s : String) : String :=
  concatAll (s.data.map (fun c => if keepsSlashStar c then String.singleton c else escapeCharJs c))

/-- Specification-side form of the second full-escape variant: a per-code-point
map keeping `[a-zA-Z0-9]` and escaping everything else. -/
def escapeSpecAll (s : String) : String :=
  concatAll (s.data.map (fun c => if isAsciiAlphanum c then String.singleton c else escapeCharJs c))

theorem strDataAppend (a b : String) : (a ++ b).data = a.data ++ b.data := rfl

theorem strExt {a b : String} (h : a.data = b.data) : a = b := by
  cases a with
  | mk la =>
    cases b with
    | mk lb => exact congrArg String.mk h

theorem strAppendEmpty (s : String) : s ++ "" = s :=
  strExt (by simp [strDataAppend])

theorem strEmptyAppend (s : String) : "" ++ s = s :=
  strExt (by simp [strDataAppend])

theorem strAppendAssoc (a b c : String) : a ++ b ++ c = a ++ (b ++ c) :=
  strExt (by simp [strDataAppend])

theorem strNeEmptyOfDataNeNil {s : String} (h : s.data ≠ []) : s ≠ "" := by
  intro he
  exact h (by simp [he])

theorem concatAllAppend (l₁ l₂ : List String) :
    concatAll (l₁ ++ l₂) = concatAll l₁ ++ concatAll l₂ := by
  induction l₁ with
  | nil => simp [concatAll, strEmptyAppend]
  | cons s t ih => simp [concatAll, ih, strAppendAssoc]

theorem concatAllAllEmpty : ∀ {l : List String}, (∀ s ∈ l, s = "") → concatAll l = ""
  | [], _ => rfl
  | s :: t, h => by
    have hs : s = "" := h s (by simp)
    have ht : concatAll t = "" := concatAllAllEmpty (fun x hx => h x (by simp [hx]))
    simp [concatAll, hs, ht, strEmptyAppend]

theorem foldlAppendEqConcatMap (f : Char → String) (l : List Char) (init : String) :
    l.foldl (fun r c => r ++ f c) init = init ++ concatAll (l.map f) := by
  induction l generalizing init with
  | nil => simp [concatAll, strAppendEmpty]
  | cons c t ih => simp [List.foldl_cons, concatAll, ih, strAppendAssoc]

theorem joinSepAppendSingle (sep : String) (l : List String) (x : String) :
    joinSep sep (l ++ [x]) = concatAll (l.map (fun s => s ++ sep)) ++ x := by
  induction l with
  | nil => simp [joinSep, concatAll, strEmptyAppend]
  | cons s t ih =>
    cases t with
    | nil => simp [joinSep, concatAll, strAppendEmpty, strAppendAssoc]
    | cons u v =>
      rw [show joinSep sep ((s :: (u :: v)) ++ [x]) =
            s ++ sep ++ joinSep sep ((u :: v) ++ [x]) from rfl]
      rw [ih]
      simp [concatAll, strAppendAssoc]

theorem joinSepLeading (sep x : String) (xs : List String) :
    ∃ t : String, joinSep sep (x :: xs) = x ++ t := by
  cases xs with
  | nil => exact ⟨"", (strAppendEmpty x).symm⟩
  | cons u v => exact ⟨sep ++ joinSep sep (u :: v), by simp [joinSep, strAppendAssoc]⟩

namespace TerraformGenerator

theorem instanceIndices_succ (n : Nat) :
    instanceIndices (n + 1) = instanceIndices n ++ [n + 1] := by
  unfold instanceIndices
  rw [List.range_succ, List.map_append]
  rfl

theorem mem_instanceIndices {n i : Nat} (h : i ∈ instanceIndices n) : 1 ≤ i ∧ i ≤ n := by
  unfold instanceIndices at h
  simp only [List.mem_map, List.mem_range] at h
  obtain ⟨j, hj, rfl⟩ := h
  omega

theorem concat_pieces_eq_joinSep (t : Nat → String) (sep : String) (n : Nat) :
    concatAll ((instanceIndices n).map
        (fun i => t i ++ (if 1 < n ∧ i < n then sep else ""))) =
      joinSep sep ((instanceIndices n).map t) := by
  match n with
  | 0 => rfl
  | 1 =>
    show concatAll [t 1 ++ (if 1 < 1 ∧ 1 < 1 then sep else "")] = joinSep sep [t 1]
    rw [if_neg (by omega)]
    simp [concatAll, joinSep, strAppendEmpty]
  | (m + 2) =>
    rw [instanceIndices_succ (m + 1), List.map_append, List.map_append,
        concatAllAppend]
    have hlast : (List.map (fun i => t i ++ (if 1 < m + 2 ∧ i < m + 2 then sep else ""))
        [m + 2]) = [t (m + 2) ++ ""] := by
      simp only [List.map_cons, List.map_nil]
      rw [if_neg (by omega)]
    have hbody : (List.map (fun i => t i ++ (if 1 < m + 2 ∧ i < m + 2 then sep else ""))
        (instanceIndices (m + 1))) = List.map (fun i => t i ++ sep) (instanceIndices (m + 1)) := by
      apply List.map_congr_left
      intro i hi
      have hb := mem_instanceIndices hi
      rw [if_pos (by omega)]
    rw [hlast, hbody]
    have hmap : List.map (fun i => t i ++ sep) (instanceIndices (m + 1)) =
        List.map (fun s => s ++ sep) (List.map t (instanceIndices (m + 1))) := by
      rw [List.map_map]
      rfl
    rw [hmap]
    have hsingle : List.map t [m + 2] = [t (m + 2)] := rfl
    rw [hsingle, joinSepAppendSingle]
    simp [concatAll, strAppendEmpty]

theorem fullTerraformConfig_eq_joinSep (input : ProfileConfiguratorValues)
    (fetched : Option (List String)) :
    (generateTerraformConfig input fetched).fullTerraformConfig =
      joinSep instanceSeparator ((instanceIndices (input.numberOfInstances.getD 1)).map
        (fun i => instanceText input fetched i (input.numberOfInstances.getD 1))) := by
  simp only [generateTerraformConfig, instancePiece]
  exact concat_pieces_eq_joinSep _ _ _

theorem ownerIdMappingAddition_empty (input : ProfileConfiguratorValues)
    (fetched : Option (List String)) (i numInstances : Nat)
    (h : ¬ ownerCondition input fetched i numInstances) :
    ownerIdMappingAddition input fetched i numInstances = "" := by
  unfold ownerIdMappingAddition
  rw [if_neg h]

theorem generate_ownerIdMapping_none (input : ProfileConfiguratorValues)
    (fetched : Option (List String))
    (h : ∀ i ∈ instanceIndices (input.numberOfInstances.getD 1),
      ¬ ownerCondition input fetched i (input.numberOfInstances.getD 1)) :
    (generateTerraformConfig input fetched).ownerIdMapping = none := by
  have hempty : concatAll ((instanceIndices (input.numberOfInstances.getD 1)).map
      (fun i => ownerIdMappingAddition input fetched i (input.numberOfInstances.getD 1))) = "" := by
    apply concatAllAllEmpty
    intro s hs
    simp only [List.mem_map] at hs
    obtain ⟨i, hi, rfl⟩ := hs
    exact ownerIdMappingAddition_empty _ _ _ _ (h i hi)
  simp only [generateTerraformConfig]
  rw [hempty]
  rfl

end TerraformGenerator

theorem hexCharVal_hexDigitChar : ∀ m : Fin 16, hexCharVal (hexDigitChar m.val) = m.val := by
  decide

theorem isHexDigitChar_hexDigitChar : ∀ m : Fin 16, isHexDigitChar (hexDigitChar m.val) := by
  decide

theorem hexCharVal_of_lt {m : Nat} (h : m < 16) : hexCharVal (hexDigitChar m) = m :=
  hexCharVal_hexDigitChar ⟨m, h⟩

theorem isHexDigitChar_of_lt {m : Nat} (h : m < 16) : isHexDigitChar (hexDigitChar m) :=
  isHexDigitChar_hexDigitChar ⟨m, h⟩

theorem hexValue_append_singleton (l : List Char) (c : Char) :
    hexValue (l ++ [c]) = 16 * hexValue l + hexCharVal c := by
  unfold hexValue
  rw [List.foldl_append]
  simp

theorem hexValue_leading_zeros (k : Nat) (l : List Char) :
    hexValue (List.replicate k '0' ++ l) = hexValue l := by
  induction k with
  | zero => simp
  | succ m ih =>
    rw [List.replicate_succ, List.cons_append]
    unfold hexValue at ih ⊢
    simp only [List.foldl_cons]
    have h0 : 16 * 0 + hexCharVal '0' = 0 := by decide
    rw [h0]
    exact ih

theorem hexDigits_small {n : Nat} (h : n < 16) : hexDigits n = [hexDigitChar n] := by
  unfold hexDigits
  rw [dif_pos h]

theorem hexDigits_large {n : Nat} (h : ¬ n < 16) :
    hexDigits n = hexDigits (n / 16) ++ [hexDigitChar (n % 16)] := by
  conv_lhs => rw [hexDigits]
  rw [dif_neg h]

theorem natToHexAux_eq_hexDigits :
    ∀ (fuel n : Nat) (acc : List Char), n < 16 ^ (fuel + 1) →
      natToHexAux (fuel + 1) n acc = hexDigits n ++ acc := by
  intro fuel
  induction fuel with
  | zero =>
    intro n acc h
    have h16 : n < 16 := by simpa using h
    show (if n < 16 then hexDigitChar n :: acc
          else natToHexAux 0 (n / 16) (hexDigitChar (n % 16) :: acc)) = _
    rw [if_pos h16, hexDigits_small h16]
    rfl
  | succ m ih =>
    intro n acc h
    show (if n < 16 then hexDigitChar n :: acc
          else natToHexAux (m + 1) (n / 16) (hexDigitChar (n % 16) :: acc)) = _
    by_cases h16 : n < 16
    · rw [if_pos h16, hexDigits_small h16]
      rfl
    · rw [if_neg h16]
      have hdiv : n / 16 < 16 ^ (m + 1) := by
        rw [Nat.div_lt_iff_lt_mul (by norm_num)]
        calc n < 16 ^ (m + 1 + 1) := h
        _ = 16 ^ (m + 1) * 16 := by ring
      rw [ih (n / 16) (hexDigitChar (n % 16) :: acc) hdiv, hexDigits_large h16]
      simp

theorem jsNumberToHexString_data (n : Nat) :
    (jsNumberToHexString n).data = hexDigits n := by
  unfold jsNumberToHexString
  have hfuel : n < 16 ^ (n + 1) := by
    calc n < 2 ^ n := Nat.lt_two_pow n
    _ ≤ 16 ^ n := Nat.pow_le_pow_left (by norm_num) n
    _ ≤ 16 ^ (n + 1) := Nat.pow_le_pow_right (by norm_num) (by omega)
  rw [natToHexAux_eq_hexDigits n n [] hfuel]
  simp

theorem hexValue_hexDigits (n : Nat) : hexValue (hexDigits n) = n := by
  induction n using Nat.strong_induction_on with
  | _ n ih =>
    by_cases h : n < 16
    · rw [hexDigits_small h]
      have hv := hexCharVal_of_lt h
      simpa [hexValue] using hv
    · rw [hexDigits_large h, hexValue_append_singleton]
      have hmod := hexCharVal_of_lt (show n % 16 < 16 from Nat.mod_lt n (by norm_num))
      rw [ih (n / 16) (Nat.div_lt_self (by omega) (by omega)), hmod]
      omega

theorem hexDigits_length_le : ∀ (k n : Nat), n < 16 ^ (k + 1) → (hexDigits n).length ≤ k + 1 := by
  intro k
  induction k with
  | zero =>
    intro n h
    have h16 : n < 16 := by simpa using h
    rw [hexDigits_small h16]
    simp
  | succ m ih =>
    intro n h
    by_cases h16 : n < 16
    · rw [hexDigits_small h16]
      simp
    · rw [hexDigits_large h16]
      have hdiv : n / 16 < 16 ^ (m + 1) := by
        rw [Nat.div_lt_iff_lt_mul (by norm_num)]
        calc n < 16 ^ (m + 1 + 1) := h
        _ = 16 ^ (m + 1) * 16 := by ring
      have hlen := ih (n / 16) hdiv
      simp only [List.length_append, List.length_cons, List.length_nil]
      omega

theorem hexDigits_mem_hex (n : Nat) : ∀ d ∈ hexDigits n, isHexDigitChar d := by
  induction n using Nat.strong_induction_on with
  | _ n ih =>
    by_cases h : n < 16
    · rw [hexDigits_small h]
      intro d hd
      rw [List.mem_singleton] at hd
      subst hd
      exact isHexDigitChar_of_lt h
    · rw [hexDigits_large h]
      intro d hd
      rw [List.mem_append] at hd
      rcases hd with hd | hd
      · exact ih (n / 16) (Nat.div_lt_self (by omega) (by omega)) d hd
      · rw [List.mem_singleton] at hd
        subst hd
        exact isHexDigitChar_of_lt (show n % 16 < 16 from Nat.mod_lt n (by norm_num))

theorem char_toNat_lt (c : Char) : c.toNat < 1114112 := by
  have h := c.valid
  rcases h with h | h
  · exact Nat.lt_trans h (by norm_num)
  · exact h.2

theorem charCodeAt0_lt (c : Char) : charCodeAt0 c < 65536 := by
  unfold charCodeAt0
  by_cases h : c.toNat < 65536
  · rw [if_pos h]
    exact h
  · rw [if_neg h]
    have hv := char_toNat_lt c
    omega

theorem escapeCharJs_data (c : Char) :
    (escapeCharJs c).data = '\\' :: 'u' ::
      (List.replicate (4 - (hexDigits (charCodeAt0 c)).length) '0' ++
        hexDigits (charCodeAt0 c)) := by
  unfold escapeCharJs padStart
  rw [strDataAppend, jsNumberToHexString_data]
  rfl

theorem hexDigits_charCode_length_le (c : Char) : (hexDigits (charCodeAt0 c)).length ≤ 4 :=
  hexDigits_length_le 3 _ (by simpa using charCodeAt0_lt c)

theorem escapeCharJs_length (c : Char) : (escapeCharJs c).data.length = 6 := by
  rw [escapeCharJs_data]
  have hlen := hexDigits_charCode_length_le c
  simp only [List.length_cons, List.length_append, List.length_replicate]
  omega

theorem escapeCharJs_take2 (c : Char) : (escapeCharJs c).data.take 2 = ['\\', 'u'] := by
  rw [escapeCharJs_data]
  rfl

theorem escapeCharJs_drop2 (c : Char) :
    (escapeCharJs c).data.drop 2 =
      List.replicate (4 - (hexDigits (charCodeAt0 c)).length) '0' ++
        hexDigits (charCodeAt0 c) := by
  rw [escapeCharJs_data]
  rfl

theorem escapeCharJs_hexValue (c : Char) :
    hexValue ((escapeCharJs c).data.drop 2) = charCodeAt0 c := by
  rw [escapeCharJs_drop2, hexValue_leading_zeros, hexValue_hexDigits]

theorem escapeCharJs_drop2_hex (c : Char) :
    ∀ d ∈ (escapeCharJs c).data.drop 2, isHexDigitChar d := by
  rw [escapeCharJs_drop2]
  intro d hd
  rw [List.mem_append] at hd
  rcases hd with hd | hd
  · rw [List.eq_of_mem_replicate hd]
    decide
  · exact hexDigits_mem_hex _ d hd

/-- C5: for every input string the sanitizer returns the string lowercased
with every character outside `[a-z0-9_]` replaced by underscore and leading
and trailing underscores trimmed; in particular it maps "My ACL!" to
"my_acl", the empty string to itself, and a symbols-only string to the empty
string. -/
theorem C5_sanitizer :
    (∀ s : String, sanitizeForTerraformResourceName s = sanitizeSpec s) ∧
    sanitizeForTerraformResourceName "My ACL!" = "my_acl" ∧
    sanitizeForTerraformResourceName "" = "" ∧
    sanitizeForTerraformResourceName "!@* $%" = "" := by
  refine ⟨?_, by decide, by decide, by decide⟩
  intro s
  by_cases h : s = ""
  · subst h
    decide
  · unfold sanitizeForTerraformResourceName sanitizeSpec trimUnderscores
      dropLeadingUnderscores dropTrailingUnderscores
    rw [if_neg h]

/-- C6: the variant-A topic escaper replaces each occurrence of the character
`>` by the literal six-character sequence `>` and leaves every other
code point unchanged; in particular it maps ">" to ">". -/
theorem C6_escape_gt_variant :
    (∀ s : String, TerraformGenerator.convertTopicToUnicodeEscaped s = escapeOnlyGtSpec s) ∧
    TerraformGenerator.convertTopicToUnicodeEscaped ">" = "\\u003e" ∧
    ("\\u003e" : String).data.length = 6 := by
  refine ⟨?_, by decide, by decide⟩
  intro s
  unfold TerraformGenerator.convertTopicToUnicodeEscaped escapeOnlyGtSpec
  rw [foldlAppendEqConcatMap, strEmptyAppend]

/-- C3: the per-instance suffix is empty for a single instance and otherwise
an underscore followed by the instance number zero-padded to three digits;
for three instances the derived per-instance names end in `_001`, `_002`,
`_003`, the document is the instance texts joined by the instance-boundary
marker, and a three-instance generation contains exactly two markers. -/
theorem countOccurrencesAux_append (pat l₁ l₂ : List Char) :
    countOccurrencesAux pat (l₁ ++ l₂) =
      countOccurrencesFrom pat l₁ l₂ + countOccurrencesAux pat l₂ := by
  induction l₁ with
  | nil => simp [countOccurrencesFrom]
  | cons c rest ih =>
    simp only [List.cons_append, countOccurrencesAux, countOccurrencesFrom, List.append_eq, ih]
    omega

set_option maxRecDepth 100000 in
theorem C3_instance_suffixing :
    (∀ i : Nat, generatePaddedSuffix i 1 = "") ∧
    (∀ i N : Nat, generatePaddedSuffix i (N + 2) = "_" ++ zeroPadTo3 i) ∧
    (∀ base : String,
      jsEndsWith (TerraformGenerator.instanceNameWithSuffix base 1 3) "_001" ∧
      jsEndsWith (TerraformGenerator.instanceNameWithSuffix base 2 3) "_002" ∧
      jsEndsWith (TerraformGenerator.instanceNameWithSuffix base 3 3) "_003") ∧
    (∀ (input : ProfileConfiguratorValues) (fetched : Option (List String)),
      (TerraformGenerator.generateTerraformConfig input fetched).fullTerraformConfig =
        joinSep TerraformGenerator.instanceSeparator
          ((TerraformGenerator.instanceIndices (input.numberOfInstances.getD 1)).map
            (fun i => TerraformGenerator.instanceText input fetched i
              (input.numberOfInstances.getD 1)))) ∧
    countOccurrences "# --- Next Profile Instance ---"
      (TerraformGenerator.generateTerraformConfig threeInstancePublisherInput
        none).fullTerraformConfig = 2 := by
  refine ⟨?_, ?_, ?_, TerraformGenerator.fullTerraformConfig_eq_joinSep, ?_⟩
  · intro i
    unfold generatePaddedSuffix
    rw [if_pos (Nat.le_refl 1)]
  · intro i N
    unfold generatePaddedSuffix
    rw [if_neg (by omega)]
    rfl
  · intro base
    have h1 : TerraformGenerator.instanceNameWithSuffix base 1 3 = base ++ "_001" := by
      unfold TerraformGenerator.instanceNameWithSuffix
      rw [show generatePaddedSuffix 1 3 = "_001" by decide]
    have h2 : TerraformGenerator.instanceNameWithSuffix base 2 3 = base ++ "_002" := by
      unfold TerraformGenerator.instanceNameWithSuffix
      rw [show generatePaddedSuffix 2 3 = "_002" by decide]
    have h3 : TerraformGenerator.instanceNameWithSuffix base 3 3 = base ++ "_003" := by
      unfold TerraformGenerator.instanceNameWithSuffix
      rw [show generatePaddedSuffix 3 3 = "_003" by decide]
    refine ⟨?_, ?_, ?_⟩
    · rw [h1]
      unfold jsEndsWith
      rw [strDataAppend]
      exact List.suffix_append base.data ("_001" : String).data
    · rw [h2]
      unfold jsEndsWith
      rw [strDataAppend]
      exact List.suffix_append base.data ("_002" : String).data
    · rw [h3]
      unfold jsEndsWith
      rw [strDataAppend]
      exact List.suffix_append base.data ("_003" : String).data
  · have hdoc : (TerraformGenerator.generateTerraformConfig threeInstancePublisherInput
        none).fullTerraformConfig =
        (TerraformGenerator.instanceText threeInstancePublisherInput none 1 3 ++
          TerraformGenerator.instanceSeparator) ++
        ((TerraformGenerator.instanceText threeInstancePublisherInput none 2 3 ++
          TerraformGenerator.instanceSeparator) ++
        ((TerraformGenerator.instanceText threeInstancePublisherInput none 3 3 ++ "") ++ "")) := rfl
    unfold countOccurrences
    rw [hdoc]
    simp only [strAppendEmpty]
    rw [show ((TerraformGenerator.instanceText threeInstancePublisherInput none 1 3 ++
        TerraformGenerator.instanceSeparator) ++
        (TerraformGenerator.instanceText threeInstancePublisherInput none 2 3 ++
        TerraformGenerator.instanceSeparator ++
        TerraformGenerator.instanceText threeInstancePublisherInput none 3 3)).data =
        (TerraformGenerator.instanceText threeInstancePublisherInput none 1 3).data ++
        ((TerraformGenerator.instanceSeparator : String).data ++
        ((TerraformGenerator.instanceText threeInstancePublisherInput none 2 3).data ++
        ((TerraformGenerator.instanceSeparator : String).data ++
        (TerraformGenerator.instanceText threeInstancePublisherInput none 3 3).data)))
      by simp [strDataAppend, List.append_assoc]]
    rw [countOccurrencesAux_append, countOccurrencesAux_append, countOccurrencesAux_append,
        countOccurrencesAux_append]
    decide

/-- C7: the generator is a pure function, so two calls on identical arguments
return the same configuration document and the same owner-id mapping. -/
theorem C7_idempotent_generation (input : ProfileConfiguratorValues)
    (fetched : Option (List String)) (out₁ out₂ : TerraformGenerationOutput)
    (h₁ : out₁ = TerraformGenerator.generateTerraformConfig input fetched)
    (h₂ : out₂ = TerraformGenerator.generateTerraformConfig input fetched) :
    out₁.fullTerraformConfig = out₂.fullTerraformConfig ∧
    out₁.ownerIdMapping = out₂.ownerIdMapping := by
  subst h₁
  subst h₂
  exact ⟨rfl, rfl⟩

/-- Witness for C7 at a concrete publisher input. -/
theorem C7_idempotent_generation_witness :
    (TerraformGenerator.generateTerraformConfig plainPublisherInput none).fullTerraformConfig =
      (TerraformGenerator.generateTerraformConfig plainPublisherInput none).fullTerraformConfig ∧
    (TerraformGenerator.generateTerraformConfig plainPublisherInput none).ownerIdMapping =
      (TerraformGenerator.generateTerraformConfig plainPublisherInput none).ownerIdMapping :=
  C7_idempotent_generation plainPublisherInput none _ _ rfl rfl

/-- C2 (amended): for every validated single-instance publisher input with one
topic, generation produces exactly one publish topic exception block and no
subscribe exception, queue, or queue subscription blocks. -/
theorem C2_publisher_blocks (input : ProfileConfiguratorValues)
    (fetched : Option (List String))
    (_hvalid : TerraformGenerator.validInput input)
    (happ : input.applicationType = ApplicationType.publisher)
    (hsingle : input.numberOfInstances.getD 1 = 1)
    (htopics : input.topics.length = 1) :
    TerraformGenerator.publishExceptionBlockCount input = 1 ∧
    TerraformGenerator.subscribeExceptionBlockCount input = 0 ∧
    TerraformGenerator.queueBlockCount input fetched = 0 ∧
    TerraformGenerator.queueSubscriptionBlockCount input fetched = 0 := by
  have hsub : ¬ input.applicationType = ApplicationType.subscriber := by
    rw [happ]
    exact fun hcontra => ApplicationType.noConfusion hcontra
  have hqc : ¬ TerraformGenerator.queueCondition input fetched 1 1 :=
    fun h => hsub h.1
  have hidx : TerraformGenerator.instanceIndices 1 = [1] := rfl
  refine ⟨?_, ?_, ?_, ?_⟩
  · unfold TerraformGenerator.publishExceptionBlockCount
    rw [hsingle, hidx]
    simp [TerraformGenerator.publishTopicExceptionResources, happ, htopics]
  · unfold TerraformGenerator.subscribeExceptionBlockCount
    rw [hsingle, hidx]
    simp [TerraformGenerator.subscribeTopicExceptionResources, hsub]
  · unfold TerraformGenerator.queueBlockCount
    rw [hsingle, hidx]
    simp [TerraformGenerator.queueResource, hqc]
  · unfold TerraformGenerator.queueSubscriptionBlockCount
    rw [hsingle, hidx]
    simp [TerraformGenerator.queueSubscriptionResources, hqc]

/-- Witness for C2 at a concrete validated publisher input. -/
theorem C2_publisher_blocks_witness :
    TerraformGenerator.publishExceptionBlockCount plainPublisherInput = 1 ∧
    TerraformGenerator.subscribeExceptionBlockCount plainPublisherInput = 0 ∧
    TerraformGenerator.queueBlockCount plainPublisherInput none = 0 ∧
    TerraformGenerator.queueSubscriptionBlockCount plainPublisherInput none = 0 :=
  C2_publisher_blocks plainPublisherInput none (by decide) rfl rfl rfl

/-- Counterexample for C2 as stated: a validated publisher input with one
topic but two instances yields two publish exception blocks, not one. -/
theorem C2_counterexample :
    TerraformGenerator.validInput twoInstancePublisherInput ∧
    twoInstancePublisherInput.applicationType = ApplicationType.publisher ∧
    twoInstancePublisherInput.topics.length = 1 ∧
    TerraformGenerator.publishExceptionBlockCount twoInstancePublisherInput = 2 := by
  refine ⟨by decide, rfl, rfl, ?_⟩
  decide

/-- C1 (amended): for every validated single-instance subscriber input with a
resolved (non-error) owner id, one topic, and a queue name whose sanitized
form is non-empty, generation produces exactly one queue block and exactly
one queue subscription block. -/
theorem C1_subscriber_blocks (input : ProfileConfiguratorValues)
    (fetched : Option (List String)) (oid : String)
    (hvalid : TerraformGenerator.validInput input)
    (happ : input.applicationType = ApplicationType.subscriber)
    (hsingle : input.numberOfInstances.getD 1 = 1)
    (howner : input.ownerId = some oid)
    (hoid : oid ≠ "")
    (hoidok : jsStartsWith oid "ErrorFetchingID_" = false)
    (htopics : input.topics.length = 1)
    (hqueue : ∀ q, input.queueName = some q → sanitizeForTerraformResourceName q ≠ "") :
    TerraformGenerator.queueBlockCount input fetched = 1 ∧
    TerraformGenerator.queueSubscriptionBlockCount input fetched = 1 := by
  have hfo : TerraformGenerator.numberOfInstancesFalsyOrOne input.numberOfInstances := by
    cases hN : input.numberOfInstances with
    | none => exact trivial
    | some n =>
      have hn1 : n = 1 := by
        rw [hN] at hsingle
        simpa using hsingle
      exact Or.inr hn1
  have hreq : TerraformGenerator.queueNameRequirement input.queueName :=
    hvalid.2.2.2.2.2.1 ⟨happ, hfo⟩
  cases hQ : input.queueName with
  | none =>
    rw [hQ] at hreq
    exact absurd hreq (fun h => h)
  | some q =>
    rw [hQ] at hreq
    have hiqn : TerraformGenerator.instanceQueueName input 1 1 = some q := by
      unfold TerraformGenerator.instanceQueueName TerraformGenerator.instanceNameWithSuffix
      simp only [hQ]
      rw [if_pos hreq.1]
      rw [show generatePaddedSuffix 1 1 = "" from rfl, strAppendEmpty]
    have hsqn : TerraformGenerator.sanitizedQueueName input 1 1 =
        some (sanitizeForTerraformResourceName q) := by
      unfold TerraformGenerator.sanitizedQueueName
      simp only [hiqn]
      rw [if_pos hreq.1]
    have hoc : ¬ TerraformGenerator.ownerCondition input fetched 1 1 :=
      fun h => Nat.lt_irrefl 1 h.2.1
    have hcoid : TerraformGenerator.currentOwnerId input fetched 1 1 = some oid := by
      unfold TerraformGenerator.currentOwnerId
      rw [if_neg hoc, howner]
    have hqcond : TerraformGenerator.queueCondition input fetched 1 1 := by
      refine ⟨happ, ?_, ?_, ?_, ?_⟩
      · rw [hiqn]
        exact hreq.1
      · rw [hsqn]
        exact hqueue q hQ
      · rw [hcoid]
        exact hoid
      · rw [hcoid]
        exact hoidok
    have hidx : TerraformGenerator.instanceIndices 1 = [1] := rfl
    constructor
    · unfold TerraformGenerator.queueBlockCount
      rw [hsingle, hidx]
      simp [TerraformGenerator.queueResource, hqcond]
    · unfold TerraformGenerator.queueSubscriptionBlockCount
      rw [hsingle, hidx]
      simp [TerraformGenerator.queueSubscriptionResources, hqcond, htopics]

/-- Witness for C1 at a concrete validated subscriber input. -/
theorem C1_subscriber_blocks_witness :
    TerraformGenerator.queueBlockCount plainSubscriberInput none = 1 ∧
    TerraformGenerator.queueSubscriptionBlockCount plainSubscriberInput none = 1 :=
  C1_subscriber_blocks plainSubscriberInput none "owner1" (by decide) rfl rfl rfl
    (by decide) (by decide) rfl
    (fun q hq => by
      rw [show plainSubscriberInput.queueName = some "MyQueue" from rfl] at hq
      injection hq with h
      subst h
      decide)

/-- Counterexample for C1 as stated: a validated single-instance subscriber
input with a resolved owner id and one topic whose queue name sanitizes to
the empty string yields zero queue blocks and zero subscription blocks; and
a validated two-instance subscriber input with a resolved owner id and one
topic yields two queue blocks and two subscription blocks. -/
theorem C1_counterexample :
    (TerraformGenerator.validInput symbolQueueSubscriberInput ∧
    symbolQueueSubscriberInput.applicationType = ApplicationType.subscriber ∧
    symbolQueueSubscriberInput.ownerId = some "owner1" ∧
    ("owner1" : String) ≠ "" ∧
    jsStartsWith "owner1" "ErrorFetchingID_" = false ∧
    symbolQueueSubscriberInput.topics.length = 1 ∧
    TerraformGenerator.queueBlockCount symbolQueueSubscriberInput none = 0 ∧
    TerraformGenerator.queueSubscriptionBlockCount symbolQueueSubscriberInput none = 0) ∧
    (TerraformGenerator.validInput twoInstanceSubscriberOwnerInput ∧
    twoInstanceSubscriberOwnerInput.applicationType = ApplicationType.subscriber ∧
    twoInstanceSubscriberOwnerInput.ownerId = some "owner1" ∧
    twoInstanceSubscriberOwnerInput.topics.length = 1 ∧
    TerraformGenerator.queueBlockCount twoInstanceSubscriberOwnerInput none = 2 ∧
    TerraformGenerator.queueSubscriptionBlockCount twoInstanceSubscriberOwnerInput none = 2) := by
  exact ⟨⟨by decide, rfl, rfl, by decide, by decide, rfl, by decide, by decide⟩,
    ⟨by decide, rfl, rfl, rfl, by decide, by decide⟩⟩

theorem aclProfileResource_data_ne_nil (input : ProfileConfiguratorValues) (i N : Nat) :
    (TerraformGenerator.aclProfileResource input i N).data ≠ [] := by
  unfold TerraformGenerator.aclProfileResource
  intro h
  simp only [strDataAppend, List.append_eq_nil] at h
  have hlit : ("resource \"solacebroker_msg_vpn_acl_profile\" \"" : String).data ≠ [] := by decide
  exact hlit (by tauto)

theorem instanceText_leading (input : ProfileConfiguratorValues)
    (fetched : Option (List String)) (i N : Nat) :
    ∃ t : String, TerraformGenerator.instanceText input fetched i N =
      TerraformGenerator.aclProfileResource input i N ++ t := by
  unfold TerraformGenerator.instanceText TerraformGenerator.instanceTerraformResources
  exact joinSepLeading _ _ _

/-- C8: generation is total on validated inputs: it always returns a result,
and the returned configuration document is non-empty. -/
theorem C8_total_generation (input : ProfileConfiguratorValues)
    (fetched : Option (List String))
    (hvalid : TerraformGenerator.validInput input) :
    (TerraformGenerator.generateTerraformConfig input fetched).fullTerraformConfig ≠ "" := by
  have hge : 1 ≤ input.numberOfInstances.getD 1 := by
    have h5 := hvalid.2.2.2.2.1
    cases hN : input.numberOfInstances with
    | none => simp [hN]
    | some n =>
      rw [hN] at h5
      simpa [hN] using h5
  obtain ⟨M, hM⟩ : ∃ M, input.numberOfInstances.getD 1 = M + 1 :=
    ⟨input.numberOfInstances.getD 1 - 1, by omega⟩
  apply strNeEmptyOfDataNeNil
  show (concatAll ((TerraformGenerator.instanceIndices (input.numberOfInstances.getD 1)).map
    (fun i => TerraformGenerator.instancePiece input fetched i
      (input.numberOfInstances.getD 1)))).data ≠ []
  rw [hM, TerraformGenerator.instanceIndices_succ, List.map_append, concatAllAppend]
  rw [show concatAll (List.map (fun i => TerraformGenerator.instancePiece input fetched i (M + 1))
      [M + 1]) = TerraformGenerator.instancePiece input fetched (M + 1) (M + 1) ++ "" from rfl]
  obtain ⟨t, ht⟩ := instanceText_leading input fetched (M + 1) (M + 1)
  rw [show TerraformGenerator.instancePiece input fetched (M + 1) (M + 1) =
      TerraformGenerator.instanceText input fetched (M + 1) (M + 1) ++
        (if 1 < M + 1 ∧ M + 1 < M + 1 then TerraformGenerator.instanceSeparator else "")
      from rfl, ht]
  intro hnil
  simp only [strDataAppend, List.append_eq_nil] at hnil
  exact aclProfileResource_data_ne_nil input (M + 1) (M + 1) (by tauto)

/-- Witness for C8 at a concrete validated input. -/
theorem C8_total_generation_witness :
    (TerraformGenerator.generateTerraformConfig plainSubscriberInput none).fullTerraformConfig ≠ "" :=
  C8_total_generation plainSubscriberInput none (by decide)

/-- C9: the ownerIdMapping result is absent unless the generation is a
multi-instance subscriber run with a truthy fetched owner id for at least one
instance; in particular it is always absent for publisher inputs and for
single-instance generation. -/
theorem C9_owner_id_mapping_absent :
    (∀ (input : ProfileConfiguratorValues) (fetched : Option (List String)),
      ¬ TerraformGenerator.mappingEligible input fetched →
        (TerraformGenerator.generateTerraformConfig input fetched).ownerIdMapping = none) ∧
    (∀ (input : ProfileConfiguratorValues) (fetched : Option (List String)),
      input.applicationType = ApplicationType.publisher →
        (TerraformGenerator.generateTerraformConfig input fetched).ownerIdMapping = none) ∧
    (∀ (input : ProfileConfiguratorValues) (fetched : Option (List String)),
      input.numberOfInstances.getD 1 = 1 →
        (TerraformGenerator.generateTerraformConfig input fetched).ownerIdMapping = none) := by
  have hmain : ∀ (input : ProfileConfiguratorValues) (fetched : Option (List String)),
      ¬ TerraformGenerator.mappingEligible input fetched →
        (TerraformGenerator.generateTerraformConfig input fetched).ownerIdMapping = none := by
    intro input fetched hne
    apply TerraformGenerator.generate_ownerIdMapping_none
    intro i hi hoc
    exact hne ⟨hoc.1, hoc.2.1, ⟨i, hi, hoc.2.2.2⟩⟩
  refine ⟨hmain, ?_, ?_⟩
  · intro input fetched happ
    apply hmain
    intro he
    have hsub := he.1
    rw [happ] at hsub
    exact ApplicationType.noConfusion hsub
  · intro input fetched h1
    apply hmain
    intro he
    have hgt := he.2.1
    rw [h1] at hgt
    exact Nat.lt_irrefl 1 hgt

/-- Witness for C9: a multi-instance subscriber run with falsy fetched ids, a
publisher run, and a single-instance run all yield no owner-id mapping. -/
theorem C9_owner_id_mapping_absent_witness :
    (TerraformGenerator.generateTerraformConfig twoInstanceSubscriberInput
      (some ["", ""])).ownerIdMapping = none ∧
    (TerraformGenerator.generateTerraformConfig twoInstancePublisherInput
      (some ["id1", "id2"])).ownerIdMapping = none ∧
    (TerraformGenerator.generateTerraformConfig plainSubscriberInput
      none).ownerIdMapping = none :=
  ⟨C9_owner_id_mapping_absent.1 twoInstanceSubscriberInput (some ["", ""]) (by decide),
   C9_owner_id_mapping_absent.2.1 twoInstancePublisherInput (some ["id1", "id2"]) rfl,
   C9_owner_id_mapping_absent.2.2 plainSubscriberInput none rfl⟩

/-- C10: in a multi-instance subscriber run, an instance whose fetched owner
id carries the `ErrorFetchingID_` prefix gets no queue block and no queue
subscription blocks, and its owner-id mapping line records
"Error - ID not fetched" instead of the id value. -/
theorem C10_error_fetching_id (input : ProfileConfiguratorValues)
    (fetched : Option (List String)) (arr : List String) (i : Nat) (e : String)
    (happ : input.applicationType = ApplicationType.subscriber)
    (hmulti : 1 < input.numberOfInstances.getD 1)
    (hf : fetched = some arr)
    (he : arr.get? (i - 1) = some e)
    (he1 : e ≠ "")
    (he2 : jsStartsWith e "ErrorFetchingID_" = true) :
    TerraformGenerator.queueResource input fetched i (input.numberOfInstances.getD 1) = none ∧
    TerraformGenerator.queueSubscriptionResources input fetched i
      (input.numberOfInstances.getD 1) = [] ∧
    TerraformGenerator.ownerIdMappingAddition input fetched i
      (input.numberOfInstances.getD 1) =
      TerraformGenerator.mappingLinePrefix input i (input.numberOfInstances.getD 1) ++
        "Error - ID not fetched\n" := by
  have hfe : TerraformGenerator.fetchedEntry fetched (i - 1) = some e := by
    rw [hf]
    exact he
  have hoc : TerraformGenerator.ownerCondition input fetched i
      (input.numberOfInstances.getD 1) := by
    refine ⟨happ, hmulti, ?_, ?_⟩
    · rw [hf]
      exact fun hcontra => Option.noConfusion hcontra
    · rw [hfe]
      exact he1
  have hcoid : TerraformGenerator.currentOwnerId input fetched i
      (input.numberOfInstances.getD 1) = some e := by
    unfold TerraformGenerator.currentOwnerId
    rw [if_pos hoc, hfe]
  have hqc : ¬ TerraformGenerator.queueCondition input fetched i
      (input.numberOfInstances.getD 1) := by
    intro h
    have h5 := h.2.2.2.2
    rw [hcoid] at h5
    simp only [Option.getD_some] at h5
    rw [h5] at he2
    exact Bool.noConfusion he2
  refine ⟨?_, ?_, ?_⟩
  · unfold TerraformGenerator.queueResource
    rw [if_neg hqc]
  · unfold TerraformGenerator.queueSubscriptionResources
    rw [if_neg hqc]
  · unfold TerraformGenerator.ownerIdMappingAddition
    rw [if_pos hoc]
    simp only [hfe]
    rw [if_neg (fun hx => by
      have h2 := he2
      rw [hx.2] at h2
      exact Bool.noConfusion h2)]
    rw [if_pos ⟨he1, he2⟩]

/-- Witness for C10 at a concrete two-instance subscriber run whose first
fetched id is an error marker. -/
theorem C10_error_fetching_id_witness :
    TerraformGenerator.queueResource twoInstanceSubscriberInput
      (some ["ErrorFetchingID_1", "id2"]) 1
      (twoInstanceSubscriberInput.numberOfInstances.getD 1) = none ∧
    TerraformGenerator.queueSubscriptionResources twoInstanceSubscriberInput
      (some ["ErrorFetchingID_1", "id2"]) 1
      (twoInstanceSubscriberInput.numberOfInstances.getD 1) = [] ∧
    TerraformGenerator.ownerIdMappingAddition twoInstanceSubscriberInput
      (some ["ErrorFetchingID_1", "id2"]) 1
      (twoInstanceSubscriberInput.numberOfInstances.getD 1) =
      TerraformGenerator.mappingLinePrefix twoInstanceSubscriberInput 1
        (twoInstanceSubscriberInput.numberOfInstances.getD 1) ++
        "Error - ID not fetched\n" :=
  C10_error_fetching_id twoInstanceSubscriberInput (some ["ErrorFetchingID_1", "id2"])
    ["ErrorFetchingID_1", "id2"] 1 "ErrorFetchingID_1" rfl (by decide) rfl rfl
    (by decide) (by decide)

/-- Counterexample for C4 as stated: for the supplementary-plane character
U+10000 the full-escape variant emits the UTF-16 high surrogate escape
`\ud800`: the escape's hex digits are not the character's code point, so the
produced escape does not denote the escaped character. -/
theorem C4_counterexample :
    FlowEscapeAll.convertTopicToUnicodeEscaped (String.singleton (Char.ofNat 65536)) =
      "\\ud800" ∧
    ("\\ud800" : String) ≠ "\\u" ++ padStart (jsNumberToHexString (Char.ofNat 65536).toNat) 4 '0' ∧
    hexValue ((FlowEscapeAll.convertTopicToUnicodeEscaped
      (String.singleton (Char.ofNat 65536))).data.drop 2) ≠ (Char.ofNat 65536).toNat := by
  exact ⟨by decide, by decide, by decide⟩

/-- C4 (amended): both full-escape variants process the topic one code point
at a time, pass their kept characters through unchanged, and replace every
other code point by `\uXXXX` with exactly four zero-padded lowercase hex
digits; the digits decode to the code point itself for characters below
U+10000, and to the UTF-16 high surrogate for supplementary-plane
characters. -/
theorem C4_full_escape (c : Char) :
    (∀ t : String, FlowKeepSlashStar.convertTopicToUnicodeEscaped t = escapeSpecKeepSlashStar t) ∧
    (∀ t : String, FlowEscapeAll.convertTopicToUnicodeEscaped t = escapeSpecAll t) ∧
    (escapeCharJs c).data.length = 6 ∧
    (escapeCharJs c).data.take 2 = ['\\', 'u'] ∧
    (∀ d ∈ (escapeCharJs c).data.drop 2, isHexDigitChar d) ∧
    ((escapeCharJs c).data.drop 2).length = 4 ∧
    (c.toNat < 65536 → hexValue ((escapeCharJs c).data.drop 2) = c.toNat) ∧
    (65536 ≤ c.toNat → hexValue ((escapeCharJs c).data.drop 2) =
      55296 + (c.toNat - 65536) / 1024) := by
  refine ⟨?_, ?_, escapeCharJs_length c, escapeCharJs_take2 c, escapeCharJs_drop2_hex c,
    ?_, ?_, ?_⟩
  · intro t
    unfold FlowKeepSlashStar.convertTopicToUnicodeEscaped escapeSpecKeepSlashStar
    rw [foldlAppendEqConcatMap, strEmptyAppend]
  · intro t
    unfold FlowEscapeAll.convertTopicToUnicodeEscaped escapeSpecAll
    rw [foldlAppendEqConcatMap, strEmptyAppend]
  · rw [List.length_drop, escapeCharJs_length]
  · intro h
    rw [escapeCharJs_hexValue]
    unfold charCodeAt0
    rw [if_pos h]
  · intro h
    rw [escapeCharJs_hexValue]
    unfold charCodeAt0
    rw [if_neg (by omega)]

/-- Witness for C4 at concrete characters: a BMP character and a
supplementary-plane character. -/
theorem C4_full_escape_witness :
    FlowEscapeAll.convertTopicToUnicodeEscaped "a.b" = escapeSpecAll "a.b" ∧
    (('.' : Char).toNat < 65536 ∧
      hexValue ((escapeCharJs '.').data.drop 2) = ('.' : Char).toNat) ∧
    (65536 ≤ (Char.ofNat 65536).toNat ∧
      hexValue ((escapeCharJs (Char.ofNat 65536)).data.drop 2) =
        55296 + ((Char.ofNat 65536).toNat - 65536) / 1024) :=
  ⟨(C4_full_escape '.').2.1 "a.b",
   ⟨by decide, (C4_full_escape '.').2.2.2.2.2.2.1 (by decide)⟩,
   ⟨by decide, (C4_full_escape (Char.ofNat 65536)).2.2.2.2.2.2.2 (by decide)⟩⟩
